import Mathlib

/-!
Verification of `src/pedalboard/io/AudioFile.h` (Pedalboard audio file I/O).

This file shallowly embeds the reader/writer stream logic of `AudioFile.h`:
`ReadableAudioFile::read` / `readRaw` / `readInteger` / `seek` / `tell`, the
`ReadableAudioFile` constructor's format-probing logic,
`determineQualityOptionIndex`, and `WriteableAudioFile::write` together with
its chunked backend handoff, plus the writer metadata accessors.

Modelling conventions:
* The JUCE codec backend is external; it is abstracted as explicit inputs
  (`ReadBackend`, `FormatManagerModel`, and a per-call success oracle
  `Nat → Bool` for the writer).
* C++ integers are modelled as `Int`/`Nat` (no overflow is at issue in the
  claims under verification); floating point math is modelled exactly over
  `ℚ` (the claims concern which scale constants are used, not rounding).
* C++ exceptions are modelled with `Except String`; a thrown exception leaves
  the object in its pre-call state, which the models reflect by performing the
  single mutating assignment (`currentPosition += ...`, `framesWritten += ...`)
  only on the success path, exactly where the source performs it.
* Error message strings follow the source, with quote and apostrophe
  characters omitted.
-/

namespace Pedalboard

def DEFAULT_AUDIO_BUFFER_SIZE_FRAMES : Nat := 8192

/-- Shared error text for operations on a closed stream (source:
`throw std::runtime_error("I/O operation on a closed file.")`). -/
def closedFileMsg : String := "I/O operation on a closed file."

/-- Error text of the zero-frame read rejection in `read` / `readRaw`
(paraphrased without quote characters). -/
def zeroFrameMsg : String :=
  "ReadableAudioFile will not read an entire file at once, due to the possibility that a file may be larger than available memory. Please pass a number of frames to read (available from the frames attribute)."

/-- Error text when the backend read call returns false. -/
def failedReadMsg : String := "Failed to read from file."

/-- Error raised by numpy/pybind11 when a buffer is allocated with a negative
dimension (reached when a negative frame count is requested). -/
def negDimMsg : String := "negative dimensions are not allowed"

/-- Error text of the unsupported-depth branch of `read`
(`"Not sure how to convert data from N bits per sample to floating point!"`). -/
def convertErrMsg (b : Nat) : String :=
  "Not sure how to convert data from " ++ toString b ++
    " bits per sample to floating point!"

/-- Error text of the unsupported-depth branch of `readRaw`. -/
def notSureReadMsg (b : Nat) : String :=
  "Not sure how to read " ++ toString b ++ "-bit audio data!"

/-- Error text of `readInteger` when called on a floating-point file
(paraphrased without apostrophes). -/
def cantReadIntegerMsg : String :=
  "Cannot call readInteger with a floating point file!"

/-- Error text of `readInteger` when the output sample type is too narrow. -/
def tooNarrowMsg (b : Nat) : String :=
  "Output array not wide enough to store " ++ toString b ++
    "-bit integer data."

/-- Error text of `seek` beyond the end of file. -/
def seekBeyondMsg (len : Int) : String :=
  "Cannot seek beyond end of file (" ++ toString len ++ " frames)."

/-- Error text of `seek` before the start of file. -/
def seekBeforeMsg : String := "Cannot seek before start of file."

/-- The metadata JUCE exposes on an open `AudioFormatReader`. These values are
produced by the external codec backend and are fixed for the life of the
reader. -/
structure ReaderInfo where
  sampleRate : Int
  lengthInSamples : Int
  numChannels : Nat
  bitsPerSample : Nat
  usesFloatingPointData : Bool
  deriving Repr, DecidableEq

/-- State of a `ReadableAudioFile`: the (optional, null after `close`) reader
handle and the `currentPosition` field (`int currentPosition = 0`). -/
structure ReadableAudioFile where
  reader : Option ReaderInfo
  currentPosition : Int
  deriving Repr, DecidableEq

/-- Abstraction of the backend decode calls made by `read` / `readSamples`:
`intSamples c i` is the left-shifted 32-bit integer sample the backend
delivers for channel `c`, absolute frame `i`; `floatSamples` the float-path
sample; `readOk` whether the backend read call succeeds. -/
structure ReadBackend where
  intSamples : Nat → Int → Int
  floatSamples : Nat → Int → ℚ
  readOk : Bool

/-- Embeds the `switch (reader->bitsPerSample)` of `ReadableAudioFile::read`
that selects `maxValueAsInt`, the per-depth fixed-point full-scale constant
whose reciprocal is used as the float conversion scale factor. -/
def maxValueForBits (b : Nat) : Except String Int :=
  if b = 24 then .ok 0x7FFFFF00
  else if b = 16 then .ok 0x7FFF0000
  else if b = 8 then .ok 0x7F000000
  else .error (convertErrMsg b)

/-- Embeds `ReadableAudioFile::read`. Returns
`(numChannels, numSamples, data, post-state)` where `data c i` is the value at
channel `c`, index `i` of the returned float buffer (exact rationals stand in
for float32). The zero-frame check precedes the closed-file check, as in the
source; the backend read happens before the scale-factor switch; the position
advance is the final step. -/
def read (bk : ReadBackend) (numSamples : Int) (f : ReadableAudioFile) :
    Except String (Nat × Int × (Nat → Int → ℚ) × ReadableAudioFile) :=
  if numSamples = 0 then .error zeroFrameMsg
  else
    match f.reader with
    | none => .error closedFileMsg
    | some r =>
      if min numSamples (r.lengthInSamples - f.currentPosition) < 0 then
        .error negDimMsg
      else if r.usesFloatingPointData = true ∨ r.bitsPerSample = 32 then
        if bk.readOk = true then
          .ok (r.numChannels,
               min numSamples (r.lengthInSamples - f.currentPosition),
               fun c i => bk.floatSamples c (f.currentPosition + i),
               { f with currentPosition := (f.currentPosition +
                   min numSamples (r.lengthInSamples - f.currentPosition)) })
        else .error failedReadMsg
      else
        if bk.readOk = true then
          match maxValueForBits r.bitsPerSample with
          | .error e => .error e
          | .ok maxValueAsInt =>
            .ok (r.numChannels,
                 min numSamples (r.lengthInSamples - f.currentPosition),
                 fun c i =>
                   (bk.intSamples c (f.currentPosition + i) : ℚ) *
                     (1 / (maxValueAsInt : ℚ)),
                 { f with currentPosition := (f.currentPosition +
                     min numSamples (r.lengthInSamples - f.currentPosition)) })
        else .error failedReadMsg

/-- Embeds `ReadableAudioFile::readInteger<SampleType>`; `targetBytes` is
`sizeof(SampleType)`. Called only with a non-null reader `r` (it is private
to `readRaw`, which performs the closed check). For depths over 16 bits a
single backend read fills the caller buffer; for narrower depths the read is
chunked, with each chunk right-shifted into native range. In either case the
position advance is the final step, so any failure leaves the position
unchanged. -/
def readInteger (bk : ReadBackend) (targetBytes : Nat) (numSamples : Int)
    (r : ReaderInfo) (f : ReadableAudioFile) :
    Except String (Nat × Int × ReadableAudioFile) :=
  if r.usesFloatingPointData = true then .error cantReadIntegerMsg
  else
    if min numSamples (r.lengthInSamples - f.currentPosition) < 0 then
      .error negDimMsg
    else if 16 < r.bitsPerSample then
      if targetBytes < 4 then .error (tooNarrowMsg r.bitsPerSample)
      else if bk.readOk = true then
        .ok (r.numChannels,
             min numSamples (r.lengthInSamples - f.currentPosition),
             { f with currentPosition := (f.currentPosition +
                 min numSamples (r.lengthInSamples - f.currentPosition)) })
      else .error failedReadMsg
    else
      if 0 < min numSamples (r.lengthInSamples - f.currentPosition) ∧
          bk.readOk = false then .error failedReadMsg
      else
        .ok (r.numChannels,
             min numSamples (r.lengthInSamples - f.currentPosition),
             { f with currentPosition := (f.currentPosition +
                 min numSamples (r.lengthInSamples - f.currentPosition)) })

/-- Embeds `ReadableAudioFile::readRaw`: the zero-frame rejection comes first
(before the closed-file check), then dispatch on the native datatype —
floating-point files delegate to `read`, integer files to `readInteger` with
the matching output width, and any other depth is an error. -/
def readRaw (bk : ReadBackend) (numSamples : Int) (f : ReadableAudioFile) :
    Except String (Nat × Int × ReadableAudioFile) :=
  if numSamples = 0 then .error zeroFrameMsg
  else
    match f.reader with
    | none => .error closedFileMsg
    | some r =>
      if r.usesFloatingPointData = true then
        match read bk numSamples f with
        | .ok (ch, m, _, f') => .ok (ch, m, f')
        | .error e => .error e
      else if r.bitsPerSample = 32 then readInteger bk 4 numSamples r f
      else if r.bitsPerSample = 16 then readInteger bk 2 numSamples r f
      else if r.bitsPerSample = 8 then readInteger bk 1 numSamples r f
      else .error (notSureReadMsg r.bitsPerSample)

/-- Embeds `ReadableAudioFile::seek`: rejects positions beyond the end of the
file, then negative positions, and otherwise assigns `currentPosition`. -/
def seek (targetPosition : Int) (f : ReadableAudioFile) :
    Except String ReadableAudioFile :=
  match f.reader with
  | none => .error closedFileMsg
  | some r =>
    if r.lengthInSamples < targetPosition then
      .error (seekBeyondMsg r.lengthInSamples)
    else if targetPosition < 0 then .error seekBeforeMsg
    else .ok { f with currentPosition := targetPosition }

/-- Embeds `ReadableAudioFile::tell`. -/
def tell (f : ReadableAudioFile) : Except String Int :=
  match f.reader with
  | none => .error closedFileMsg
  | some _ => .ok f.currentPosition

/-- One reader-stream operation, for reasoning about operation sequences.
Each constructor carries the backend behaviour for that call. -/
inductive ReadOp where
  | read (bk : ReadBackend) (n : Int)
  | readRaw (bk : ReadBackend) (n : Int)
  | seek (p : Int)

/-- The state after an operation: the new state on success, and the unchanged
state when the call throws (a C++ exception leaves the object as it was). -/
def applyOp (f : ReadableAudioFile) (op : ReadOp) : ReadableAudioFile :=
  match op with
  | .read bk n =>
    match read bk n f with
    | .ok (_, _, _, f') => f'
    | .error _ => f
  | .readRaw bk n =>
    match readRaw bk n f with
    | .ok (_, _, f') => f'
    | .error _ => f
  | .seek p =>
    match seek p f with
    | .ok f' => f'
    | .error _ => f

/-- The state of a `ReadableAudioFile` immediately after a successful open:
reader present, `currentPosition = 0`. -/
def openedFile (r : ReaderInfo) : ReadableAudioFile :=
  { reader := some r, currentPosition := 0 }

/-- The position invariant of the spec: on an open stream the read position
lies within `[0, lengthInSamples]`. -/
def posInvariant (f : ReadableAudioFile) : Prop :=
  ∀ r, f.reader = some r →
    0 ≤ f.currentPosition ∧ f.currentPosition ≤ r.lengthInSamples

/-- Abstraction of the two format probes the `ReadableAudioFile` constructor
runs against the external `juce::AudioFormatManager`: whether the path exists
as a file, the result of the fast extension-based probe
(`createReaderFor(juce::File)`), and the result of the thorough stream-based
probe (`createReaderFor(file.createInputStream())`). Each probe result is the
format name of the reader it produced, if any. -/
structure FormatManagerModel where
  existsAsFile : Bool
  extensionProbeFormat : Option String
  streamProbeFormat : Option String
  deriving Repr, DecidableEq

/-- Error text for a missing input file. -/
def noFileMsg (filename : String) : String :=
  "Failed to open audio file: file does not exist: " ++ filename

/-- Error text of the MP3 stream-probe guard (paraphrased without quote and
apostrophe characters). -/
def mp3GuardMsg (filename : String) : String :=
  "Failed to open audio file: file " ++ filename ++
    " does not seem to be of a known or supported format. (If trying to open an MP3 file, ensure the filename ends with .mp3.)"

/-- Error text when no backend can parse the file at all. -/
def unknownFormatMsg (filename : String) : String :=
  "Failed to open audio file: file " ++ filename ++
    " does not seem to be of a known or supported format."

/-- Embeds the probing logic of `ReadableAudioFile::ReadableAudioFile`:
missing file is an error; an extension-probe hit is accepted; otherwise the
stream probe runs, and a stream-probe reader whose format name is
`"MP3 file"` is rejected (note: the source performs this rejection without
consulting the path extension, despite its comment); no reader at all is an
error. On success the reader's format name is returned. -/
def readableOpen (filename : String) (fm : FormatManagerModel) :
    Except String String :=
  if fm.existsAsFile = false then .error (noFileMsg filename)
  else
    match fm.extensionProbeFormat with
    | some fmt => .ok fmt
    | none =>
      match fm.streamProbeFormat with
      | some fmt =>
        if fmt = "MP3 file" then .error (mp3GuardMsg filename)
        else .ok fmt
      | none => .error (unknownFormatMsg filename)

/-! ## Quality option resolution (`determineQualityOptionIndex`) -/

/-- Lower-casing over the character list (the character-level model of
`juce::String::toLowerCase`, implemented structurally so that it reduces by
computation). -/
def toLowerStr (s : String) : String :=
  String.mk (s.data.map Char.toLower)

/-- The whitespace test used by trimming. -/
def isWhitespaceChar (c : Char) : Bool :=
  c = ' ' ∨ c = '\t' ∨ c = '\n' ∨ c = '\r'

/-- Whitespace trimming at both ends over the character list (the model of
`juce::String::trim`). -/
def trimStr (s : String) : String :=
  String.mk
    (((s.data.dropWhile isWhitespaceChar).reverse.dropWhile
      isWhitespaceChar).reverse)

/-- First index of an element equal to `s` ignoring case, as in
`juce::StringArray::indexOf(s, ignoreCase = true)`. -/
def indexOfIgnoreCase (options : List String) (s : String) : Option Nat :=
  options.findIdx? (fun o => toLowerStr o == toLowerStr s)

/-- The digit-counting loop of `determineQualityOptionIndex`. The source loop
iterates over the whole string with no early exit, so despite its name it
counts every digit character in the string, wherever it occurs. -/
def numLeadingDigits (s : String) : Nat :=
  (s.data.filter (fun c => c.isDigit)).length

/-- Whether `hay` starts with `needle`, on character lists. -/
def listStartsWith : List Char → List Char → Bool
  | _, [] => true
  | [], _ :: _ => false
  | h :: hs, n :: ns => h == n && listStartsWith hs ns

/-- Whether `needle` occurs as a contiguous sublist of `hay`. -/
def listContainsSub (hay needle : List Char) : Bool :=
  if listStartsWith hay needle then true
  else
    match hay with
    | [] => false
    | _ :: t => listContainsSub t needle

/-- `juce::String::containsIgnoreCase`. -/
def containsIgnoreCase (o s : String) : Bool :=
  listContainsSub (toLowerStr o).data (toLowerStr s).data

/-- Whether `s` ends with `tail`, over character lists (used to state the
extension condition of the MP3 guard claim). -/
def strEndsWith (s tail : String) : Bool :=
  listStartsWith s.data.reverse tail.data.reverse

/-- `juce::String::operator[]` followed by a negated digit test:
`!isDigit(option[k])`. An out-of-range juce index yields the null character,
which is not a digit, hence `true`. -/
def charAtIsNonDigit (o : String) (k : Nat) : Bool :=
  match o.data.get? k with
  | some c => !c.isDigit
  | none => true

/-- Error text when a format offers no quality settings but one was given. -/
def noQualitySettingsMsg (qualityString formatName : String) : String :=
  "Unable to parse provided quality value (" ++ qualityString ++ "). " ++
    formatName ++ "s do not accept quality settings."

/-- Error text when the quality string matched no option; the message
enumerates the valid labels. -/
def unparseableMsg (qualityString formatName : String)
    (options : List String) : String :=
  "Unable to parse provided quality value (" ++ qualityString ++
    "). Valid values for " ++ formatName ++ "s are: " ++
    String.intercalate ", " options

/-- Embeds `determineQualityOptionIndex`. The format is represented by its
name and its ordered quality-option labels. Resolution: trim; if the trimmed
string is non-empty: error when there are no options; else a case-insensitive
exact match wins; else, when the string contains any digit, the first
`numLeadingDigits` characters are taken as the prefix token and the first
label that starts with it, is strictly longer, and is not followed by a digit
is selected; else the first label containing the string case-insensitively is
selected; an unresolved non-empty string is an error. An empty string selects
the last option (or index 0 when there are none). -/
def determineQualityOptionIndex (formatName : String)
    (possibleQualityOptions : List String) (inputString : String) :
    Except String Nat :=
  let qualityString := trimStr inputString
  if qualityString = "" then
    if possibleQualityOptions.length ≠ 0 then
      .ok (possibleQualityOptions.length - 1)
    else .ok 0
  else if possibleQualityOptions.length = 0 then
    .error (noQualitySettingsMsg qualityString formatName)
  else
    match indexOfIgnoreCase possibleQualityOptions qualityString with
    | some i => .ok i
    | none =>
      if numLeadingDigits qualityString ≠ 0 then
        let leadingIntValue :=
          String.mk (qualityString.data.take (numLeadingDigits qualityString))
        match possibleQualityOptions.findIdx? (fun o =>
            listStartsWith o.data leadingIntValue.data &&
            decide (leadingIntValue.length < o.length) &&
            charAtIsNonDigit o leadingIntValue.length) with
        | some i => .ok i
        | none =>
          .error (unparseableMsg qualityString formatName
            possibleQualityOptions)
      else
        match possibleQualityOptions.findIdx? (fun o =>
            containsIgnoreCase o qualityString) with
        | some i => .ok i
        | none =>
          .error (unparseableMsg qualityString formatName
            possibleQualityOptions)

/-- The MP3 bitrate labels used by the spec's quality-resolution examples. -/
def mp3Labels : List String := ["32 kbps", "64 kbps", "128 kbps", "320 kbps"]

/-! ## Writable stream -/

/-- The metadata JUCE exposes on an open `AudioFormatWriter`. -/
structure WriterInfo where
  sampleRate : Int
  numChannels : Nat
  bitsPerSample : Nat
  isFloatingPoint : Bool
  deriving Repr, DecidableEq

/-- State of a `WriteableAudioFile`: the (optional, null after `close`) writer
handle, the quality label resolved at open, and the `framesWritten` counter. -/
structure WriteableAudioFile where
  writer : Option WriterInfo
  quality : Option String
  framesWritten : Int
  deriving Repr, DecidableEq

/-- Embeds `WriteableAudioFile::getSampleRate` (closed check, then the
writer's value). -/
def WriteableAudioFile.getSampleRate (f : WriteableAudioFile) :
    Except String Int :=
  match f.writer with
  | none => .error closedFileMsg
  | some w => .ok w.sampleRate

/-- Embeds `WriteableAudioFile::getNumChannels`. -/
def WriteableAudioFile.getNumChannels (f : WriteableAudioFile) :
    Except String Nat :=
  match f.writer with
  | none => .error closedFileMsg
  | some w => .ok w.numChannels

/-- Embeds `WriteableAudioFile::getFramesWritten`. The source returns the
member `framesWritten` directly, with no closed-file check, so this accessor
never fails. -/
def WriteableAudioFile.getFramesWritten (f : WriteableAudioFile) :
    Except String Int :=
  .ok f.framesWritten

/-- Embeds `WriteableAudioFile::getQuality`. The source returns the stored
`quality` member directly, with no closed-file check, so this accessor never
fails. -/
def WriteableAudioFile.getQuality (f : WriteableAudioFile) :
    Except String (Option String) :=
  .ok f.quality

/-- Embeds `WriteableAudioFile::getFileDatatype` (closed check, then the
switch on floating-point flag and bits per sample). -/
def WriteableAudioFile.getFileDatatype (f : WriteableAudioFile) :
    Except String String :=
  match f.writer with
  | none => .error closedFileMsg
  | some w =>
    if w.isFloatingPoint then
      if w.bitsPerSample = 16 ∨ w.bitsPerSample = 32 then .ok "float32"
      else if w.bitsPerSample = 64 then .ok "float64"
      else .ok "unknown"
    else
      if w.bitsPerSample = 8 then .ok "int8"
      else if w.bitsPerSample = 16 then .ok "int16"
      else if w.bitsPerSample = 24 then .ok "int24"
      else if w.bitsPerSample = 32 then .ok "int32"
      else if w.bitsPerSample = 64 then .ok "int64"
      else .ok "unknown"

/-- Embeds `WriteableAudioFile::close`: not idempotent — closing an
already-closed writer is an error. -/
def WriteableAudioFile.close (f : WriteableAudioFile) :
    Except String WriteableAudioFile :=
  match f.writer with
  | none => .error "Cannot close closed file."
  | some _ => .ok { f with writer := none }

/-- The numeric kind of a caller-supplied sample buffer, mirroring the five
`write` bindings (int8/int16/int32/float32/float64). -/
inductive SampleKind where
  | int8
  | int16
  | int32
  | float32
  | float64
  deriving Repr, DecidableEq

/-- A caller-supplied numpy buffer, reduced to what `write` inspects: its
numeric kind and its shape (the dimension list). -/
structure InputArray where
  kind : SampleKind
  shape : List Nat
  deriving Repr, DecidableEq

/-- Channel layouts, per the data model. -/
inductive ChannelLayout where
  | interleaved
  | notInterleaved
  | undetermined
  deriving Repr, DecidableEq

/-- Modelled from the spec: `detectChannelLayout` lives in
`src/pedalboard/BufferUtils.h`, which is not part of the sources under
verification. Per the spec, the Channel Layout Detector infers planar versus
interleaved layout from the input shape against the stream's configured
channel count (1-D input is planar; for 2-D input, axis 0 matching the
channel count means planar and axis 1 matching means interleaved), with
undecidable shapes left undetermined — `WriteableAudioFile::write` itself
(which is in the sources) re-checks the shape and raises the ambiguity,
mismatch, and dimension errors before the layout is ever consumed. -/
def detectChannelLayout (numChannels : Nat) (shape : List Nat) :
    ChannelLayout :=
  match shape with
  | [_] => .notInterleaved
  | [a, b] =>
    if a = numChannels ∧ b = numChannels then .undetermined
    else if a = numChannels then .notInterleaved
    else if b = numChannels then .interleaved
    else .undetermined
  | _ => .undetermined

/-- The chunk sizes produced by a loop
`for (start = 0; start < n; start += 8192)` with
`chunk = min(n - start, 8192)`. -/
def chunkSizes : Nat → List Nat
  | 0 => []
  | n + 1 =>
    min (n + 1) DEFAULT_AUDIO_BUFFER_SIZE_FRAMES ::
      chunkSizes (n + 1 - min (n + 1) DEFAULT_AUDIO_BUFFER_SIZE_FRAMES)
termination_by n => n
decreasing_by
  have hd : 0 < DEFAULT_AUDIO_BUFFER_SIZE_FRAMES := by decide
  omega

/-- The sequence of frame counts handed to the backend writer by one call of
the three-argument `write(channels, numChannels, numSamples)` overload, which
dispatches on the sample type:
* `float32` goes to the backend in a single call (`writer->write` or
  `writer->writeFromFloatArrays`);
* `int32` goes straight to `writer->write` in one call unless the writer is
  floating-point, in which case `writeConvertingTo<float>` chunks it;
* `int8` / `int16` go through `writeConvertingTo<int>`, which chunks (each
  chunk then reaches the backend in one call, directly or via one further
  single-chunk float conversion);
* `float64` goes through `writeConvertingTo<float>`, which chunks. -/
def write3Calls (kind : SampleKind) (isFP : Bool) (n : Nat) : List Nat :=
  match kind with
  | .float32 => [n]
  | .int32 => if isFP then chunkSizes n else [n]
  | .int8 => chunkSizes n
  | .int16 => chunkSizes n
  | .float64 => chunkSizes n

/-- The sequence of frame counts handed to the backend writer by
`WriteableAudioFile::write(inputArray)` after shape checks pass: interleaved
input is de-interleaved in 8192-frame chunks, each chunk passed to the
three-argument `write`; planar input is passed to it whole. -/
def writeCallsForArray (kind : SampleKind) (isFP : Bool)
    (layout : ChannelLayout) (n : Nat) : List Nat :=
  match layout with
  | .interleaved => ((chunkSizes n).map (write3Calls kind isFP)).flatten
  | .notInterleaved => write3Calls kind isFP n
  | .undetermined => []

/-- Runs a sequence of backend write calls against the success oracle `bk`
(indexed by the number of calls made so far), accumulating the trace of frame
counts handed over; stops at the first failing call. Returns whether all
calls succeeded together with the trace. -/
def runBackendCalls (bk : Nat → Bool) (tr : List Nat) :
    List Nat → Bool × List Nat
  | [] => (true, tr)
  | s :: rest =>
    if bk tr.length then runBackendCalls bk (tr ++ [s]) rest
    else (false, tr ++ [s])

/-- Error text of the ambiguous square shape. -/
def ambiguousShapeMsg (c : Nat) : String :=
  "Unable to determine shape of audio input! Both dimensions have the same shape. Expected " ++
    toString c ++ "-channel audio, with one dimension larger than the other."

/-- Error text when neither 2-D axis matches the channel count. -/
def shapeMismatchMsg (c : Nat) : String :=
  "Unable to determine shape of audio input! Expected " ++ toString c ++
    "-channel audio."

/-- Error text for buffers of more than 2 (or 0) dimensions. -/
def ndimMsg (n : Nat) : String :=
  "Number of input dimensions must be 1 or 2 (got " ++ toString n ++ ")."

/-- Error text when the detected channel count differs from the stream's. -/
def channelCountMsg (streamChannels detected : Nat) : String :=
  "WritableAudioFile was opened with num_channels=" ++
    toString streamChannels ++ ", but was passed an array containing " ++
    toString detected ++ "-channel audio!"

/-- Error text when a backend write call fails. -/
def unableToWriteMsg : String := "Unable to write data to audio file."

/-- Error text of the defensive default case of the layout switch. -/
def internalLayoutMsg : String :=
  "Internal error: got unexpected channel layout."

/-- The body of `write` after the shape dispatch has produced
`(numChannels, numSamples)`: the zero-channel silent no-op, the channel-count
check, the defensive layout switch, the chunked backend handoff, and — only
when every backend call succeeded — the single final
`framesWritten += numSamples`. Returns the call outcome, the post-call
object state, and the trace of frame counts handed to the backend. -/
def writeBody (bk : Nat → Bool) (f : WriteableAudioFile) (w : WriterInfo)
    (layout : ChannelLayout) (kind : SampleKind)
    (numChannels numSamples : Nat) :
    Except String Unit × WriteableAudioFile × List Nat :=
  if numChannels = 0 then (.ok (), f, [])
  else if numChannels ≠ w.numChannels then
    (.error (channelCountMsg w.numChannels numChannels), f, [])
  else
    match layout with
    | .undetermined => (.error internalLayoutMsg, f, [])
    | layout =>
      match runBackendCalls bk []
          (writeCallsForArray kind w.isFloatingPoint layout numSamples) with
      | (true, tr) =>
        (.ok (),
         { f with framesWritten := f.framesWritten + (numSamples : Int) }, tr)
      | (false, tr) => (.error unableToWriteMsg, f, tr)

/-- Embeds `WriteableAudioFile::write(inputArray)`: closed check, layout
detection, then the shape dispatch of the source — 1-D input is one channel;
for 2-D input a square shape matching the channel count on both axes is the
ambiguity error, axis 1 matching means interleaved frames, axis 0 matching
means planar channels, and no match is the shape-mismatch error; any other
rank is rejected — followed by `writeBody`. -/
def writeArray (bk : Nat → Bool) (f : WriteableAudioFile) (arr : InputArray) :
    Except String Unit × WriteableAudioFile × List Nat :=
  match f.writer with
  | none => (.error closedFileMsg, f, [])
  | some w =>
    let layout := detectChannelLayout w.numChannels arr.shape
    match arr.shape with
    | [n] => writeBody bk f w layout arr.kind 1 n
    | [a, b] =>
      if a = w.numChannels ∧ b = w.numChannels then
        (.error (ambiguousShapeMsg w.numChannels), f, [])
      else if b = w.numChannels then writeBody bk f w layout arr.kind b a
      else if a = w.numChannels then writeBody bk f w layout arr.kind a b
      else (.error (shapeMismatchMsg w.numChannels), f, [])
    | l => (.error (ndimMsg l.length), f, [])

/-- The frame count `write` infers from a buffer shape for a stream with `c`
channels (0 on the shapes `write` rejects). -/
def inferredNumFrames (c : Nat) (shape : List Nat) : Nat :=
  match shape with
  | [n] => n
  | [a, b] =>
    if a = c ∧ b = c then 0
    else if b = c then a
    else if a = c then b
    else 0
  | _ => 0

/-! ## Fixtures for concrete witnesses -/

/-- A 16-bit integer stereo reader of 10 frames. -/
def c1Reader : ReaderInfo :=
  { sampleRate := 44100, lengthInSamples := 10, numChannels := 2,
    bitsPerSample := 16, usesFloatingPointData := false }

/-- A backend delivering the constant left-shifted sample 256. -/
def c1Backend : ReadBackend :=
  { intSamples := fun _ _ => 256, floatSamples := fun _ _ => 0, readOk := true }

/-- A 16-bit integer stereo reader of 10 frames. -/
def c4Reader : ReaderInfo :=
  { sampleRate := 44100, lengthInSamples := 10, numChannels := 2,
    bitsPerSample := 16, usesFloatingPointData := false }

/-- A backend whose reads always succeed. -/
def c4Backend : ReadBackend :=
  { intSamples := fun _ _ => 0, floatSamples := fun _ _ => 0, readOk := true }

/-- A 16-bit integer stereo reader of 10 frames. -/
def c6Reader : ReaderInfo :=
  { sampleRate := 44100, lengthInSamples := 10, numChannels := 2,
    bitsPerSample := 16, usesFloatingPointData := false }

/-- A freshly opened stream over `c6Reader`. -/
def c6File : ReadableAudioFile := openedFile c6Reader

/-- A 16-bit integer stereo reader of 10 frames. -/
def c9Reader : ReaderInfo :=
  { sampleRate := 44100, lengthInSamples := 10, numChannels := 2,
    bitsPerSample := 16, usesFloatingPointData := false }

/-- A backend whose reads always succeed. -/
def c9Backend : ReadBackend :=
  { intSamples := fun _ _ => 0, floatSamples := fun _ _ => 0, readOk := true }

/-- A writer stream that has been closed after writing 7 frames of a file
opened with an MP3-style quality setting. -/
def closedWriterFile : WriteableAudioFile :=
  { writer := none, quality := some "320 kbps", framesWritten := 7 }

/-- A 16-bit fixed-point stereo writer. -/
def c5Writer : WriterInfo :=
  { sampleRate := 44100, numChannels := 2, bitsPerSample := 16,
    isFloatingPoint := false }

/-- An open stream over `c5Writer`. -/
def c5File : WriteableAudioFile :=
  { writer := some c5Writer, quality := none, framesWritten := 0 }

/-- A 16-bit fixed-point stereo writer. -/
def c10Writer : WriterInfo :=
  { sampleRate := 44100, numChannels := 2, bitsPerSample := 16,
    isFloatingPoint := false }

/-- An open stream over `c10Writer` with 5 frames already written. -/
def c10File : WriteableAudioFile :=
  { writer := some c10Writer, quality := none, framesWritten := 5 }

/-- A planar float32 buffer of 2 channels and 3 frames. -/
def c10Arr : InputArray := { kind := .float32, shape := [2, 3] }

/-- A backend write oracle that always succeeds. -/
def bkAlwaysTrue : Nat → Bool := fun _ => true

/-- A closed stream fixture for the zero-frame read example. -/
def c8WriterExample : WriteableAudioFile := closedWriterFile

/-! ## Helper lemmas about the reader -/

theorem read_ok_state {bk : ReadBackend} {n : Int} {f : ReadableAudioFile}
    {ch : Nat} {m : Int} {d : Nat → Int → ℚ} {f' : ReadableAudioFile}
    (h : read bk n f = .ok (ch, m, d, f')) :
    ∃ r, f.reader = some r ∧ ch = r.numChannels ∧
      m = min n (r.lengthInSamples - f.currentPosition) ∧ 0 ≤ m ∧
      f' = { f with currentPosition := f.currentPosition + m } := by
  by_cases h0 : n = 0
  · simp [read, h0] at h
  · rcases hr : f.reader with _ | r
    · simp [read, h0, hr] at h
    · by_cases hneg : min n (r.lengthInSamples - f.currentPosition) < 0
      · simp [read, h0, hr, hneg] at h
      · by_cases hc : (r.usesFloatingPointData = true ∨ r.bitsPerSample = 32)
        · by_cases hbk : bk.readOk = true
          · simp [read, h0, hr, hneg, hc, hbk] at h
            obtain ⟨h1, h2, _, h4⟩ := h
            refine ⟨r, rfl, by omega, by omega, by omega, ?_⟩
            rw [← h4, h2]
          · simp [read, h0, hr, hneg, hc, hbk] at h
        · by_cases hbk : bk.readOk = true
          · rcases hmv : maxValueForBits r.bitsPerSample with e | v
            · simp [read, h0, hr, hneg, hc, hbk, hmv] at h
            · simp [read, h0, hr, hneg, hc, hbk, hmv] at h
              obtain ⟨h1, h2, _, h4⟩ := h
              refine ⟨r, rfl, by omega, by omega, by omega, ?_⟩
              rw [← h4, h2]
          · simp [read, h0, hr, hneg, hc, hbk] at h

theorem readInteger_ok_state {bk : ReadBackend} {tb : Nat} {n : Int}
    {r : ReaderInfo} {f : ReadableAudioFile} {ch : Nat} {m : Int}
    {f' : ReadableAudioFile}
    (h : readInteger bk tb n r f = .ok (ch, m, f')) :
    m = min n (r.lengthInSamples - f.currentPosition) ∧ 0 ≤ m ∧
    f' = { f with currentPosition := f.currentPosition + m } := by
  by_cases hfp : r.usesFloatingPointData = true
  · simp [readInteger, hfp] at h
  · by_cases hneg : min n (r.lengthInSamples - f.currentPosition) < 0
    · simp [readInteger, hfp, hneg] at h
    · by_cases h16 : 16 < r.bitsPerSample
      · by_cases htb : tb < 4
        · simp [readInteger, hfp, hneg, h16, htb] at h
        · by_cases hbk : bk.readOk = true
          · simp [readInteger, hfp, hneg, h16, htb, hbk] at h
            obtain ⟨_, h2, h3⟩ := h
            refine ⟨by omega, by omega, ?_⟩
            rw [← h3, h2]
          · simp [readInteger, hfp, hneg, h16, htb, hbk] at h
      · by_cases hbk : bk.readOk = true
        · simp [readInteger, hfp, hneg, h16, hbk] at h
          obtain ⟨_, h2, h3⟩ := h
          refine ⟨by omega, by omega, ?_⟩
          rw [← h3, h2]
        · have hbf : bk.readOk = false := by
            revert hbk; cases bk.readOk <;> simp
          by_cases hpos : 0 < min n (r.lengthInSamples - f.currentPosition)
          · simp [readInteger, hfp, hneg, h16, hbf, hpos] at h
          · simp [readInteger, hfp, hneg, h16, hbf, hpos] at h
            obtain ⟨_, h2, h3⟩ := h
            refine ⟨by omega, by omega, ?_⟩
            rw [← h3, h2]

theorem readRaw_ok_state {bk : ReadBackend} {n : Int} {f : ReadableAudioFile}
    {ch : Nat} {m : Int} {f' : ReadableAudioFile}
    (h : readRaw bk n f = .ok (ch, m, f')) :
    ∃ r, f.reader = some r ∧
      m = min n (r.lengthInSamples - f.currentPosition) ∧ 0 ≤ m ∧
      f' = { f with currentPosition := f.currentPosition + m } := by
  by_cases h0 : n = 0
  · simp [readRaw, h0] at h
  · rcases hr : f.reader with _ | r
    · simp [readRaw, h0, hr] at h
    · by_cases hfp : r.usesFloatingPointData = true
      · rcases hread : read bk n f with e | out
        · simp [readRaw, h0, hr, hfp, hread] at h
        · obtain ⟨ch', m', d', f''⟩ := out
          simp [readRaw, h0, hr, hfp, hread] at h
          obtain ⟨h1, h2, h3⟩ := h
          obtain ⟨r', hr', _, hm, hge, hf⟩ := read_ok_state hread
          rw [hr] at hr'
          injection hr' with hrr
          subst hrr
          refine ⟨r, rfl, by omega, by omega, ?_⟩
          rw [← h3, hf, h2, hr]
      · by_cases h32 : r.bitsPerSample = 32
        · simp [readRaw, h0, hr, hfp, h32] at h
          obtain ⟨hm, hge, hf⟩ := readInteger_ok_state h
          exact ⟨r, rfl, hm, hge, by rw [hf, hr]⟩
        · by_cases h16 : r.bitsPerSample = 16
          · simp [readRaw, h0, hr, hfp, h32, h16] at h
            obtain ⟨hm, hge, hf⟩ := readInteger_ok_state h
            exact ⟨r, rfl, hm, hge, by rw [hf, hr]⟩
          · by_cases h8 : r.bitsPerSample = 8
            · simp [readRaw, h0, hr, hfp, h32, h16, h8] at h
              obtain ⟨hm, hge, hf⟩ := readInteger_ok_state h
              exact ⟨r, rfl, hm, hge, by rw [hf, hr]⟩
            · simp [readRaw, h0, hr, hfp, h32, h16, h8] at h

theorem seek_ok_state {p : Int} {f f' : ReadableAudioFile}
    (h : seek p f = .ok f') :
    ∃ r, f.reader = some r ∧ 0 ≤ p ∧ p ≤ r.lengthInSamples ∧
      f' = { f with currentPosition := p } := by
  rcases hr : f.reader with _ | r
  · simp [seek, hr] at h
  · by_cases hgt : r.lengthInSamples < p
    · simp [seek, hr, hgt] at h
    · by_cases hlt : p < 0
      · simp [seek, hr, hgt, hlt] at h
      · simp [seek, hr, hgt, hlt] at h
        exact ⟨r, rfl, by omega, by omega, h.symm⟩

theorem applyOp_posInvariant {f : ReadableAudioFile} (hf : posInvariant f)
    (op : ReadOp) : posInvariant (applyOp f op) := by
  cases op with
  | read bk n =>
    rcases hres : read bk n f with e | out
    · simpa [applyOp, hres] using hf
    · obtain ⟨ch, m, d, f'⟩ := out
      have hred : applyOp f (.read bk n) = f' := by simp [applyOp, hres]
      rw [hred]
      obtain ⟨r, hr, _, hm, hge, hf'⟩ := read_ok_state hres
      rw [hf']
      intro r' hr'
      have hrr : f.reader = some r' := hr'
      rw [hr] at hrr
      injection hrr with he
      subst he
      obtain ⟨hp0, hpL⟩ := hf r hr
      show 0 ≤ f.currentPosition + m ∧
        f.currentPosition + m ≤ r.lengthInSamples
      omega
  | readRaw bk n =>
    rcases hres : readRaw bk n f with e | out
    · simpa [applyOp, hres] using hf
    · obtain ⟨ch, m, f'⟩ := out
      have hred : applyOp f (.readRaw bk n) = f' := by simp [applyOp, hres]
      rw [hred]
      obtain ⟨r, hr, hm, hge, hf'⟩ := readRaw_ok_state hres
      rw [hf']
      intro r' hr'
      have hrr : f.reader = some r' := hr'
      rw [hr] at hrr
      injection hrr with he
      subst he
      obtain ⟨hp0, hpL⟩ := hf r hr
      show 0 ≤ f.currentPosition + m ∧
        f.currentPosition + m ≤ r.lengthInSamples
      omega
  | seek p =>
    rcases hres : seek p f with e | f'
    · simpa [applyOp, hres] using hf
    · have hred : applyOp f (.seek p) = f' := by simp [applyOp, hres]
      rw [hred]
      obtain ⟨r, hr, hp0, hpL, hf'⟩ := seek_ok_state hres
      rw [hf']
      intro r' hr'
      have hrr : f.reader = some r' := hr'
      rw [hr] at hrr
      injection hrr with he
      subst he
      exact ⟨hp0, hpL⟩

theorem posInvariant_foldl : ∀ (ops : List ReadOp) (f : ReadableAudioFile),
    posInvariant f → posInvariant (ops.foldl applyOp f)
  | [], _, hf => hf
  | op :: rest, f, hf =>
    posInvariant_foldl rest (applyOp f op) (applyOp_posInvariant hf op)

/-! ## Claim theorems: readable stream -/

/-- C1: for 8-, 16-, and 24-bit integer data, `read` rescales the
left-shifted 32-bit samples it gets from the backend by the reciprocal of the
exact per-depth constant — `0x7FFFFF00` for 24-bit, `0x7FFF0000` for 16-bit,
`0x7F000000` for 8-bit — never the generic int32-max divisor `0x7FFFFFFF`;
any other non-32-bit integer depth makes `read` fail with the
conversion-error branch. -/
theorem c1_int_read_scaling :
    maxValueForBits 24 = Except.ok 0x7FFFFF00 ∧
    maxValueForBits 16 = Except.ok 0x7FFF0000 ∧
    maxValueForBits 8 = Except.ok 0x7F000000 ∧
    (∀ b v, maxValueForBits b = Except.ok v → v ≠ 0x7FFFFFFF) ∧
    (∀ b, b ≠ 8 → b ≠ 16 → b ≠ 24 →
      maxValueForBits b = Except.error (convertErrMsg b)) ∧
    (∀ bk n f r, f.reader = some r → r.usesFloatingPointData = false →
      r.bitsPerSample ≠ 32 → 0 < n → 0 ≤ f.currentPosition →
      f.currentPosition ≤ r.lengthInSamples → bk.readOk = true →
      (∀ v, maxValueForBits r.bitsPerSample = Except.ok v →
        read bk n f = Except.ok (r.numChannels,
          min n (r.lengthInSamples - f.currentPosition),
          fun c i => (bk.intSamples c (f.currentPosition + i) : ℚ) *
            (1 / (v : ℚ)),
          { f with currentPosition := (f.currentPosition +
              min n (r.lengthInSamples - f.currentPosition)) })) ∧
      (∀ e, maxValueForBits r.bitsPerSample = Except.error e →
        read bk n f = Except.error e)) := by
  refine ⟨rfl, rfl, rfl, ?_, ?_, ?_⟩
  · intro b v h
    unfold maxValueForBits at h
    split_ifs at h <;> simp_all <;> omega
  · intro b h8 h16 h24
    unfold maxValueForBits
    rw [if_neg h24, if_neg h16, if_neg h8]
  · intro bk n f r hr hfp h32 hn hp0 hpL hbk
    have h0 : ¬ n = 0 := by omega
    have hneg : ¬ min n (r.lengthInSamples - f.currentPosition) < 0 := by
      omega
    have hc : ¬ (r.usesFloatingPointData = true ∨ r.bitsPerSample = 32) := by
      simp [hfp, h32]
    constructor
    · intro v hv
      simp [read, h0, hr, hneg, hc, hbk, hv]
    · intro e he
      simp [read, h0, hr, hneg, hc, hbk, he]

/-- Witness for C1: on a 16-bit stream, a concrete read succeeds and every
returned value is the backend sample times the reciprocal of `0x7FFF0000`. -/
theorem c1_int_read_scaling_witness :
    (read c1Backend 4 (openedFile c1Reader)).toOption.map
        (fun out => (out.1, out.2.1, out.2.2.2)) =
      some (2, 4, { reader := some c1Reader, currentPosition := 4 }) := by
  have h := ((c1_int_read_scaling.2.2.2.2.2 c1Backend 4 (openedFile c1Reader)
    c1Reader rfl rfl (by decide) (by decide) (by decide) (by decide) rfl).1
    0x7FFF0000 rfl)
  rw [h]
  decide

/-- C4: on an open stream with a valid position, a successful `read` of
`n > 0` frames returns exactly `(numChannels, min n (length - position))` and
advances the position by that same frame count (shrinking at end of file
rather than padding). -/
theorem c4_read_shape_and_advance (bk : ReadBackend) (n : Int)
    (f : ReadableAudioFile) (r : ReaderInfo)
    (hr : f.reader = some r) (hn : 0 < n)
    (_hp0 : 0 ≤ f.currentPosition)
    (hpL : f.currentPosition ≤ r.lengthInSamples)
    (hbk : bk.readOk = true)
    (hdepth : r.usesFloatingPointData = true ∨ r.bitsPerSample = 32 ∨
      r.bitsPerSample = 8 ∨ r.bitsPerSample = 16 ∨ r.bitsPerSample = 24) :
    (read bk n f).toOption.map (fun out => (out.1, out.2.1, out.2.2.2)) =
      some (r.numChannels, min n (r.lengthInSamples - f.currentPosition),
        { f with currentPosition := (f.currentPosition +
            min n (r.lengthInSamples - f.currentPosition)) }) := by
  have h0 : ¬ n = 0 := by omega
  have hneg : ¬ min n (r.lengthInSamples - f.currentPosition) < 0 := by omega
  by_cases hc : (r.usesFloatingPointData = true ∨ r.bitsPerSample = 32)
  · have hread : read bk n f = Except.ok (r.numChannels,
        min n (r.lengthInSamples - f.currentPosition),
        fun c i => bk.floatSamples c (f.currentPosition + i),
        { f with currentPosition := (f.currentPosition +
            min n (r.lengthInSamples - f.currentPosition)) }) := by
      simp [read, h0, hr, hneg, hc, hbk]
    rw [hread]
    rfl
  · have hb : r.bitsPerSample = 8 ∨ r.bitsPerSample = 16 ∨
        r.bitsPerSample = 24 := by tauto
    obtain ⟨v, hv⟩ : ∃ v, maxValueForBits r.bitsPerSample = Except.ok v := by
      rcases hb with hb | hb | hb
      · exact ⟨0x7F000000, by simp [maxValueForBits, hb]⟩
      · exact ⟨0x7FFF0000, by simp [maxValueForBits, hb]⟩
      · exact ⟨0x7FFFFF00, by simp [maxValueForBits, hb]⟩
    have hread : read bk n f = Except.ok (r.numChannels,
        min n (r.lengthInSamples - f.currentPosition),
        fun c i => (bk.intSamples c (f.currentPosition + i) : ℚ) *
          (1 / (v : ℚ)),
        { f with currentPosition := (f.currentPosition +
            min n (r.lengthInSamples - f.currentPosition)) }) := by
      simp [read, h0, hr, hneg, hc, hbk, hv]
    rw [hread]
    rfl

/-- Witness for C4: a concrete read of 4 frames at position 0 of a 10-frame
16-bit stereo stream returns shape `(2, 4)` and advances to position 4. -/
theorem c4_read_shape_and_advance_witness :
    (read c4Backend 4 (openedFile c4Reader)).toOption.map
        (fun out => (out.1, out.2.1, out.2.2.2)) =
      some (c4Reader.numChannels,
        min 4 (c4Reader.lengthInSamples - (openedFile c4Reader).currentPosition),
        { openedFile c4Reader with currentPosition :=
            ((openedFile c4Reader).currentPosition +
              min 4 (c4Reader.lengthInSamples -
                (openedFile c4Reader).currentPosition)) }) :=
  c4_read_shape_and_advance c4Backend 4 (openedFile c4Reader) c4Reader rfl
    (by decide) (by decide) (by decide) rfl (by decide)

/-- C6: on an open stream, `seek p` succeeds for every `p` in
`[0, length]` and a subsequent `tell` returns exactly `p`; seeking to
`length + 1` or to `-1` fails, and a failed seek leaves the position (indeed
the whole stream state) unchanged. -/
theorem c6_seek_tell (f : ReadableAudioFile) (r : ReaderInfo)
    (hr : f.reader = some r) (hL : 0 ≤ r.lengthInSamples) :
    (∀ p, 0 ≤ p → p ≤ r.lengthInSamples →
      seek p f = Except.ok { f with currentPosition := p } ∧
      tell { f with currentPosition := p } = Except.ok p) ∧
    seek (r.lengthInSamples + 1) f =
      Except.error (seekBeyondMsg r.lengthInSamples) ∧
    seek (-1) f = Except.error seekBeforeMsg ∧
    applyOp f (ReadOp.seek (r.lengthInSamples + 1)) = f ∧
    applyOp f (ReadOp.seek (-1)) = f := by
  have hbeyond : seek (r.lengthInSamples + 1) f =
      Except.error (seekBeyondMsg r.lengthInSamples) := by
    simp only [seek, hr]
    rw [if_pos (by omega)]
  have hbefore : seek (-1) f = Except.error seekBeforeMsg := by
    simp only [seek, hr]
    rw [if_neg (by omega), if_pos (by omega)]
  refine ⟨?_, hbeyond, hbefore, by simp [applyOp, hbeyond],
    by simp [applyOp, hbefore]⟩
  intro p hp0 hpL
  constructor
  · simp only [seek, hr]
    rw [if_neg (by omega), if_neg (by omega)]
  · simp [tell, hr]

/-- Witness for C6: on a fresh 10-frame stream, `seek 7` succeeds with
`tell` returning 7, while `seek 11` and `seek (-1)` fail without moving the
stream. -/
theorem c6_seek_tell_witness :
    seek 7 c6File = Except.ok { c6File with currentPosition := 7 } ∧
    tell { c6File with currentPosition := 7 } = Except.ok 7 ∧
    seek (c6Reader.lengthInSamples + 1) c6File =
      Except.error (seekBeyondMsg c6Reader.lengthInSamples) ∧
    seek (-1) c6File = Except.error seekBeforeMsg ∧
    applyOp c6File (ReadOp.seek (c6Reader.lengthInSamples + 1)) = c6File ∧
    applyOp c6File (ReadOp.seek (-1)) = c6File := by
  obtain ⟨hall, h1, h2, h3, h4⟩ := c6_seek_tell c6File c6Reader rfl (by decide)
  obtain ⟨ha, hb⟩ := hall 7 (by decide) (by decide)
  exact ⟨ha, hb, h1, h2, h3, h4⟩

/-- C7: `read 0` and `readRaw 0` always fail with the zero-frame validation
error, in every stream state — including on a closed stream, where this check
takes precedence over the closed-stream error. -/
theorem c7_zero_frame_rejection (bk : ReadBackend) (f : ReadableAudioFile) :
    read bk 0 f = Except.error zeroFrameMsg ∧
    readRaw bk 0 f = Except.error zeroFrameMsg := by
  constructor <;> simp [read, readRaw]

/-- C9: starting from a freshly opened stream, any sequence of `read`,
`readRaw`, and `seek` operations (with arbitrary arguments and backend
behaviour) keeps the current position within `[0, lengthInSamples]`. -/
theorem c9_position_invariant (r : ReaderInfo) (hL : 0 ≤ r.lengthInSamples)
    (ops : List ReadOp) :
    posInvariant (ops.foldl applyOp (openedFile r)) := by
  apply posInvariant_foldl
  intro r' hr'
  have hrr : some r = some r' := hr'
  injection hrr with he
  subst he
  exact ⟨le_refl 0, hL⟩

/-- Witness for C9: the invariant holds after a concrete operation sequence
(an in-range seek, a straddling read, a negative readRaw request). -/
theorem c9_position_invariant_witness :
    posInvariant ([ReadOp.seek 7, ReadOp.read c9Backend 5,
      ReadOp.readRaw c9Backend (-3)].foldl applyOp (openedFile c9Reader)) :=
  c9_position_invariant c9Reader (by decide) _

/-! ## Helper lemmas about the writer -/

theorem runBackendCalls_ok_calls (bk : Nat → Bool) :
    ∀ (sizes tr₀ tr : List Nat), runBackendCalls bk tr₀ sizes = (true, tr) →
      ∀ i, tr₀.length ≤ i → i < tr.length → bk i = true := by
  intro sizes
  induction sizes with
  | nil =>
    intro tr₀ tr h i h1 h2
    simp only [runBackendCalls, Prod.mk.injEq, true_and] at h
    subst h
    omega
  | cons s rest ih =>
    intro tr₀ tr h i h1 h2
    simp only [runBackendCalls] at h
    by_cases hb : bk tr₀.length = true
    · rw [if_pos hb] at h
      rcases Nat.eq_or_lt_of_le h1 with heq | hlt
      · rw [← heq]
        exact hb
      · refine ih (tr₀ ++ [s]) tr h i ?_ h2
        simp only [List.length_append, List.length_cons, List.length_nil]
        omega
    · rw [if_neg hb] at h
      simp at h

theorem writeBody_state (bk : Nat → Bool) (f : WriteableAudioFile)
    (w : WriterInfo) (layout : ChannelLayout) (kind : SampleKind)
    (nc ns : Nat) :
    (∀ e, (writeBody bk f w layout kind nc ns).1 = Except.error e →
      (writeBody bk f w layout kind nc ns).2.1 = f) ∧
    ((writeBody bk f w layout kind nc ns).1 = Except.ok () →
      (writeBody bk f w layout kind nc ns).2.1.framesWritten =
        f.framesWritten + (if nc = 0 then 0 else (ns : Int)) ∧
      ∀ i, i < (writeBody bk f w layout kind nc ns).2.2.length →
        bk i = true) := by
  by_cases h0 : nc = 0
  · constructor
    · intro e he
      simp [writeBody, h0] at he
    · intro _
      constructor
      · simp [writeBody, h0]
      · intro i hi
        simp [writeBody, h0] at hi
  · by_cases hq : nc = w.numChannels
    · subst hq
      cases layout with
      | undetermined =>
        constructor
        · intro e _
          simp [writeBody, h0]
        · intro hok
          simp [writeBody, h0] at hok
      | interleaved =>
        rcases hrun : runBackendCalls bk []
            (writeCallsForArray kind w.isFloatingPoint .interleaved ns)
          with ⟨ok, tr⟩
        cases ok
        · constructor
          · intro e _
            simp [writeBody, h0, hrun]
          · intro hok
            simp [writeBody, h0, hrun] at hok
        · constructor
          · intro e he
            simp [writeBody, h0, hrun] at he
          · intro _
            constructor
            · simp [writeBody, h0, hrun]
            · intro i hi
              simp [writeBody, h0, hrun] at hi
              exact runBackendCalls_ok_calls bk _ [] tr hrun i (by simp) hi
      | notInterleaved =>
        rcases hrun : runBackendCalls bk []
            (writeCallsForArray kind w.isFloatingPoint .notInterleaved ns)
          with ⟨ok, tr⟩
        cases ok
        · constructor
          · intro e _
            simp [writeBody, h0, hrun]
          · intro hok
            simp [writeBody, h0, hrun] at hok
        · constructor
          · intro e he
            simp [writeBody, h0, hrun] at he
          · intro _
            constructor
            · simp [writeBody, h0, hrun]
            · intro i hi
              simp [writeBody, h0, hrun] at hi
              exact runBackendCalls_ok_calls bk _ [] tr hrun i (by simp) hi
    · constructor
      · intro e _
        simp [writeBody, h0, hq]
      · intro hok
        simp [writeBody, h0, hq] at hok

/-! ## Claim theorems: quality resolution, probing, writable stream -/

/-- C2: the claim says that a specifier with a leading run of digits is
resolved by matching that leading digit run against the labels, so that with
the MP3 labels the specifier `"32a5"` (leading run `"32"`) would resolve to
`"32 kbps"`. The code instead counts every digit in the string (its
`numLeadingDigits` loop has no early exit), takes `"32a"` as the token, and
fails. The all-digit examples of the claim do hold: `"32"` resolves to index
0 (never index 3, `"320 kbps"`), `"128"` to index 2, and an absent specifier
to index 3 (`"320 kbps"`). -/
theorem c2_quality_prefix_code_eval :
    determineQualityOptionIndex "MP3" mp3Labels "32a5" =
      Except.error (unparseableMsg "32a5" "MP3" mp3Labels) ∧
    numLeadingDigits "32a5" = 3 ∧
    determineQualityOptionIndex "MP3" mp3Labels "32" = Except.ok 0 ∧
    determineQualityOptionIndex "MP3" mp3Labels "128" = Except.ok 2 ∧
    determineQualityOptionIndex "MP3" mp3Labels "" = Except.ok 3 :=
  ⟨rfl, rfl, rfl, rfl, rfl⟩

/-- C3: the claim says a stream-probe MP3 match is rejected if and only if
the path extension is not `.mp3`. The source rejects such a match
unconditionally — here, a path that does end in `.mp3` whose extension probe
failed and whose stream probe reports `"MP3 file"` is still rejected,
contradicting the guard the comment and error message describe. -/
theorem c3_mp3_guard_code_eval :
    strEndsWith "example.mp3" ".mp3" = true ∧
    readableOpen "example.mp3"
        { existsAsFile := true, extensionProbeFormat := none,
          streamProbeFormat := some "MP3 file" } =
      Except.error (mp3GuardMsg "example.mp3") :=
  ⟨rfl, rfl⟩

/-- C5: on a writable stream with `C ≥ 2` configured channels, a 2-D buffer
with both axes equal to `C` fails with the ambiguity error, one with neither
axis equal to `C` fails with the shape-mismatch error, and a buffer of more
than 2 dimensions is rejected; in each failure the state is unchanged and no
frame chunk is handed to the backend (empty handoff trace). -/
theorem c5_write_shape_errors (bk : Nat → Bool) (f : WriteableAudioFile)
    (w : WriterInfo) (kind : SampleKind) (hw : f.writer = some w)
    (_hC : 2 ≤ w.numChannels) :
    writeArray bk f ⟨kind, [w.numChannels, w.numChannels]⟩ =
      (Except.error (ambiguousShapeMsg w.numChannels), f, []) ∧
    (∀ a b, a ≠ w.numChannels → b ≠ w.numChannels →
      writeArray bk f ⟨kind, [a, b]⟩ =
        (Except.error (shapeMismatchMsg w.numChannels), f, [])) ∧
    (∀ shape, 2 < shape.length →
      writeArray bk f ⟨kind, shape⟩ =
        (Except.error (ndimMsg shape.length), f, [])) := by
  refine ⟨?_, ?_, ?_⟩
  · simp [writeArray, hw]
  · intro a b ha hb
    simp [writeArray, hw, ha, hb]
  · intro shape hlen
    rcases shape with _ | ⟨x, _ | ⟨y, _ | ⟨z, rest⟩⟩⟩
    · simp at hlen
    · simp at hlen
    · simp at hlen
    · simp [writeArray, hw]

/-- Witness for C5: concrete square, mismatched, and 3-D buffers against a
2-channel writer. -/
theorem c5_write_shape_errors_witness :
    writeArray bkAlwaysTrue c5File ⟨SampleKind.float32, [2, 2]⟩ =
      (Except.error (ambiguousShapeMsg 2), c5File, []) ∧
    writeArray bkAlwaysTrue c5File ⟨SampleKind.float32, [3, 4]⟩ =
      (Except.error (shapeMismatchMsg 2), c5File, []) ∧
    writeArray bkAlwaysTrue c5File ⟨SampleKind.float32, [1, 1, 1]⟩ =
      (Except.error (ndimMsg 3), c5File, []) := by
  obtain ⟨h1, h2, h3⟩ := c5_write_shape_errors bkAlwaysTrue c5File c5Writer
    SampleKind.float32 rfl (by decide)
  exact ⟨h1, h2 3 4 (by decide) (by decide), h3 [1, 1, 1] (by decide)⟩

/-- C8 counterexample: the claim says every metadata accessor — including the
frames-written counter and the resolved quality — fails with the
closed-stream error after close. On a concrete closed writer, the
frames-written and quality accessors succeed (the source returns the stored
members without a closed-file check), refuting the claim. -/
theorem c8_counterexample :
    closedWriterFile.writer = none ∧
    closedWriterFile.getFramesWritten = Except.ok 7 ∧
    closedWriterFile.getQuality = Except.ok (some "320 kbps") :=
  ⟨rfl, rfl, rfl⟩

/-- C8 (amended): after close, the sample-rate, channel-count, and native
datatype accessors fail with the closed-stream error, while the
frames-written and resolved-quality accessors still succeed, returning the
stored values. -/
theorem c8_closed_metadata_amended (f : WriteableAudioFile)
    (h : f.writer = none) :
    f.getSampleRate = Except.error closedFileMsg ∧
    f.getNumChannels = Except.error closedFileMsg ∧
    f.getFileDatatype = Except.error closedFileMsg ∧
    f.getFramesWritten = Except.ok f.framesWritten ∧
    f.getQuality = Except.ok f.quality := by
  refine ⟨?_, ?_, ?_, rfl, rfl⟩ <;>
    simp [WriteableAudioFile.getSampleRate, WriteableAudioFile.getNumChannels,
      WriteableAudioFile.getFileDatatype, h]

/-- Witness for C8 (amended): the dichotomy evaluated on a concrete closed
writer. -/
theorem c8_closed_metadata_amended_witness :
    closedWriterFile.getSampleRate = Except.error closedFileMsg ∧
    closedWriterFile.getNumChannels = Except.error closedFileMsg ∧
    closedWriterFile.getFileDatatype = Except.error closedFileMsg ∧
    closedWriterFile.getFramesWritten = Except.ok closedWriterFile.framesWritten ∧
    closedWriterFile.getQuality = Except.ok closedWriterFile.quality :=
  c8_closed_metadata_amended closedWriterFile rfl

/-- C10: a `write` call that fails — closed stream, bad shape, channel
mismatch, or a backend failure partway through the chunked transfer — leaves
the stream state (in particular the frames-written counter) unchanged; when it
succeeds, every chunk handed to the backend was accepted and the counter is
incremented by the buffer frame count, in one final step. -/
theorem c10_frames_written (bk : Nat → Bool) (f : WriteableAudioFile)
    (arr : InputArray) :
    (∀ e, (writeArray bk f arr).1 = Except.error e →
      (writeArray bk f arr).2.1 = f) ∧
    (∀ w, f.writer = some w → 1 ≤ w.numChannels →
      (writeArray bk f arr).1 = Except.ok () →
      (writeArray bk f arr).2.1.framesWritten =
        f.framesWritten + (inferredNumFrames w.numChannels arr.shape : Int) ∧
      ∀ i, i < (writeArray bk f arr).2.2.length → bk i = true) := by
  obtain ⟨kind, shape⟩ := arr
  dsimp only
  rcases hw : f.writer with _ | w
  · constructor
    · intro e _
      simp [writeArray, hw]
    · intro w hww
      exact absurd hww (by simp)
  · rcases shape with _ | ⟨a, _ | ⟨b, _ | ⟨z, rest⟩⟩⟩
    · constructor
      · intro e _
        simp [writeArray, hw]
      · intro w' hw' hge hok
        simp [writeArray, hw] at hok
    · have hred : writeArray bk f ⟨kind, [a]⟩ =
          writeBody bk f w (detectChannelLayout w.numChannels [a]) kind 1 a := by
        simp [writeArray, hw]
      obtain ⟨hErr, hOk⟩ := writeBody_state bk f w
        (detectChannelLayout w.numChannels [a]) kind 1 a
      rw [hred]
      refine ⟨hErr, ?_⟩
      intro w' hw' hge hok
      injection hw' with hww
      subst hww
      obtain ⟨hframes, htr⟩ := hOk hok
      refine ⟨?_, htr⟩
      rw [hframes]
      simp [inferredNumFrames]
    · by_cases hab : a = w.numChannels ∧ b = w.numChannels
      · have hred : writeArray bk f ⟨kind, [a, b]⟩ =
            (Except.error (ambiguousShapeMsg w.numChannels), f, []) := by
          simp [writeArray, hw, hab]
        rw [hred]
        constructor
        · intro e _
          rfl
        · intro w' hw' hge hok
          exact absurd hok (by simp)
      · by_cases hbC : b = w.numChannels
        · have haN : ¬ a = w.numChannels := fun hx => hab ⟨hx, hbC⟩
          have hred : writeArray bk f ⟨kind, [a, b]⟩ =
              writeBody bk f w (detectChannelLayout w.numChannels [a, b])
                kind b a := by
            simp [writeArray, hw, haN, hbC]
          obtain ⟨hErr, hOk⟩ := writeBody_state bk f w
            (detectChannelLayout w.numChannels [a, b]) kind b a
          rw [hred]
          refine ⟨hErr, ?_⟩
          intro w' hw' hge hok
          injection hw' with hww
          subst hww
          obtain ⟨hframes, htr⟩ := hOk hok
          refine ⟨?_, htr⟩
          have h1 : inferredNumFrames w.numChannels [a, b] = a := by
            simp [inferredNumFrames, haN, hbC]
          rw [hframes, h1, if_neg (show ¬ b = 0 by omega)]
        · by_cases haC : a = w.numChannels
          · have hred : writeArray bk f ⟨kind, [a, b]⟩ =
                writeBody bk f w (detectChannelLayout w.numChannels [a, b])
                  kind a b := by
              simp [writeArray, hw, hab, hbC, haC]
            obtain ⟨hErr, hOk⟩ := writeBody_state bk f w
              (detectChannelLayout w.numChannels [a, b]) kind a b
            rw [hred]
            refine ⟨hErr, ?_⟩
            intro w' hw' hge hok
            injection hw' with hww
            subst hww
            obtain ⟨hframes, htr⟩ := hOk hok
            refine ⟨?_, htr⟩
            have h1 : inferredNumFrames w.numChannels [a, b] = b := by
              simp [inferredNumFrames, hab, hbC, haC]
            rw [hframes, h1, if_neg (show ¬ a = 0 by omega)]
          · have hred : writeArray bk f ⟨kind, [a, b]⟩ =
                (Except.error (shapeMismatchMsg w.numChannels), f, []) := by
              simp [writeArray, hw, hab, hbC, haC]
            rw [hred]
            constructor
            · intro e _
              rfl
            · intro w' hw' hge hok
              exact absurd hok (by simp)
    · constructor
      · intro e _
        simp [writeArray, hw]
      · intro w' hw' hge hok
        simp [writeArray, hw] at hok

/-- Witness for C10: a successful concrete write of a planar float32 buffer
of 3 frames increments the counter by exactly 3. -/
theorem c10_frames_written_witness :
    (writeArray bkAlwaysTrue c10File c10Arr).2.1.framesWritten =
      c10File.framesWritten +
        (inferredNumFrames c10Writer.numChannels c10Arr.shape : Int) :=
  ((c10_frames_written bkAlwaysTrue c10File c10Arr).2 c10Writer rfl
    (by decide) rfl).1

end Pedalboard
